import Mathlib

/-!
Verification of the SMTP session engine in `mta/mta.go` (gopistolet/smtp).

The Go code is shallowly embedded: the per-connection `State`, its sequence
predicates, the command dispatch of `Mta.HandleClient`, the DATA body drain
and the command-read loop are translated into executable Lean definitions.
Interaction with the protocol adapter (`proto.Send`, `proto.GetCmd`,
`proto.StartTls`, `proto.Close`), the mail handler and the fatal log call are
reified as an ordered list of `Event`s, so that claims about reply sequences,
handler invocations and resource release become statements about traces.
-/

namespace Mta

/-- Modelled from the spec: the reply status codes of the external `smtp`
package (spec section 6, "Reply code vocabulary"); the package itself is not
part of the sources, only the numeric codes it assigns. -/
def Ready : Nat := 220

/-- Modelled from the spec: smtp.Closing = 221. -/
def Closing : Nat := 221

/-- Modelled from the spec: smtp.Ok = 250. -/
def Ok : Nat := 250

/-- Modelled from the spec: smtp.StartData = 354. -/
def StartData : Nat := 354

/-- Modelled from the spec: smtp.ShuttingDown = 421. -/
def ShuttingDown : Nat := 421

/-- Modelled from the spec: smtp.SyntaxError = 500. -/
def SyntaxError : Nat := 500

/-- Modelled from the spec: smtp.SyntaxErrorParam = 501. -/
def SyntaxErrorParam : Nat := 501

/-- Modelled from the spec: smtp.NotImplemented = 502. -/
def NotImplemented : Nat := 502

/-- Modelled from the spec: smtp.BadSequence = 503. -/
def BadSequence : Nat := 503

/-- An opaque parsed mail address (`smtp.MailAddress` is external; the engine
treats it as a value type). -/
structure MailAddress where
  address : String
deriving DecidableEq, Repr

/-- Session id (`Id` in mta.go): `(Timestamp, Counter)`. -/
structure Id where
  Timestamp : Int
  Counter : Nat
deriving DecidableEq, Repr

/-- `State` in mta.go: all the state for a single client.  The Go struct has
exactly the fields `From`, `To`, `Data`, `EightBitMIME`, `Secure`,
`SessionId`, `Ip`; the Go zero value / pointer `nil` for `From` is `none`. -/
structure State where
  From : Option MailAddress
  To : List MailAddress
  Data : List Nat
  EightBitMIME : Bool
  Secure : Bool
  SessionId : Id
  Ip : String
deriving DecidableEq, Repr

/-- `State.reset` in mta.go: clears `From`, `To`, `Data`, `EightBitMIME`. -/
def State.reset (s : State) : State :=
  { s with From := none, To := [], Data := [], EightBitMIME := false }

/-- `State.canReceiveMail` in mta.go. -/
def State.canReceiveMail (s : State) : Bool × String :=
  if s.From.isSome then (false, "Sender already specified")
  else (true, "")

/-- `State.canReceiveRcpt` in mta.go. -/
def State.canReceiveRcpt (s : State) : Bool × String :=
  if s.From.isNone then (false, "Need mail before RCPT")
  else (true, "")

/-- `State.canReceiveData` in mta.go. -/
def State.canReceiveData (s : State) : Bool × String :=
  if s.From.isNone then (false, "Need mail before DATA")
  else if s.To.length = 0 then (false, "Need RCPT before DATA")
  else (true, "")

/-- The outcome of the final `ioutil.ReadAll` call on a DATA body reader:
either it completes cleanly (`nil` error), or the stream closed mid-body
(`smtp.ErrIncomplete`), or some other read error occurred. -/
inductive FinalRes where
  | clean
  | incomplete
  | otherErr
deriving DecidableEq, Repr

/-- The DATA body reader (`cmd.R` of `smtp.DataCmd`), modelled by the sequence
of outcomes of successive `ioutil.ReadAll` calls in the `tryAgain` loop of
mta.go: each element of `ltlChunks` is the data of one call that ended in
`smtp.ErrLtl` (the reader is resumable), and `finalChunk`/`finalErr` are the
data and error of the first call that does not end in `ErrLtl`. -/
structure DataReader where
  ltlChunks : List (List Nat)
  finalChunk : List Nat
  finalErr : FinalRes
deriving DecidableEq, Repr

/-- The command variants of the external `smtp` package consumed by the
dispatch in `Mta.HandleClient` (mta.go lines 313-524).  Payloads are the
fields the engine reads: `HeloCmd.Domain`/`EhloCmd.Domain`, `MailCmd.From`
and `MailCmd.EightBitMIME`, `RcptCmd.To`, `DataCmd.R`, `InvalidCmd.Info`. -/
inductive Cmd where
  | HeloCmd (Domain : String)
  | EhloCmd (Domain : String)
  | QuitCmd
  | MailCmd (From : Option MailAddress) (EightBitMIME : Bool)
  | RcptCmd (To : MailAddress)
  | DataCmd (R : DataReader)
  | RsetCmd
  | StartTlsCmd
  | NoopCmd
  | VrfyCmd
  | ExpnCmd
  | SendCmd
  | SomlCmd
  | SamlCmd
  | InvalidCmd (Info : String)
  | UnknownCmd
deriving DecidableEq, Repr

/-- Observable actions of the engine, in program order: replies sent through
the protocol adapter, handler invocations, the TLS upgrade call, closing the
adapter, and the fatal `log.Panic` of the unrecoverable body-error branch. -/
inductive Event where
  | reply (status : Nat) (message : String)
  | multiReply (status : Nat) (messages : List String)
  | handleMail (s : State)
  | startTls
  | close
  | fatalPanic
deriving DecidableEq, Repr

/-- `Config` in mta.go (only `Hostname` is read by the session engine). -/
structure Config where
  Hostname : String
  Port : Nat
  TlsCert : String
  TlsKey : String
deriving DecidableEq, Repr

/-- How draining the DATA body ends: `cont` resumes the command loop with the
given state, `died` aborts the goroutine through `log.Panic`. -/
inductive DrainRes where
  | cont (st : State)
  | died (st : State)
deriving DecidableEq, Repr

/-- The `tryAgain` loop of mta.go lines 409-433: each `ReadAll` result is
appended to `state.Data` before the error is examined; `ErrLtl` sends
500 "Line too long" and retries, `ErrIncomplete` sends 500 "Could not parse
mail data" and resets, any other error hits `log.Panic`.  On a clean read the
code falls through to `HandleMail`, 250 "Mail delivered" and `reset`
(lines 435-443). -/
def drainLoop : State → List (List Nat) → List Nat → FinalRes → List Event × DrainRes
  | st, chunk :: rest, fc, fe =>
      let res := drainLoop { st with Data := st.Data ++ chunk } rest fc fe
      (Event.reply SyntaxError "Line too long" :: res.1, res.2)
  | st, [], fc, fe =>
      let st' := { st with Data := st.Data ++ fc }
      match fe with
      | FinalRes.clean =>
          ([Event.handleMail st', Event.reply Ok "Mail delivered"], DrainRes.cont st'.reset)
      | FinalRes.incomplete =>
          ([Event.reply SyntaxError "Could not parse mail data"], DrainRes.cont st'.reset)
      | FinalRes.otherErr =>
          ([Event.fatalPanic], DrainRes.died st')

/-- Draining a DATA body reader from a given state. -/
def drainData (st : State) (r : DataReader) : List Event × DrainRes :=
  drainLoop st r.ltlChunks r.finalChunk r.finalErr

/-- Result of dispatching one command: continue the loop, leave the loop
through `quit = true`, or abort the goroutine by panicking. -/
inductive StepOut where
  | next (events : List Event) (st : State)
  | quitOut (events : List Event) (st : State)
  | panicOut (events : List Event) (st : State)
deriving DecidableEq, Repr

/-- The `switch cmd := (*c).(type)` dispatch of `Mta.HandleClient`
(mta.go lines 313-524).  `hasTls` is `s.hasTls()` (whether `TlsConfig` is
non-nil); `tlsOk` is whether `proto.StartTls` returns a nil error. -/
def handleCommand (cfg : Config) (hasTls tlsOk : Bool) (state : State) : Cmd → StepOut
  | Cmd.HeloCmd _ =>
      StepOut.next [Event.reply Ok cfg.Hostname] state
  | Cmd.EhloCmd _ =>
      let state' := state.reset
      let messages := [cfg.Hostname, "8BITMIME"]
      let messages := if hasTls && !state'.Secure then messages ++ ["STARTTLS"] else messages
      let messages := messages ++ ["OK"]
      StepOut.next [Event.multiReply Ok messages] state'
  | Cmd.QuitCmd =>
      StepOut.quitOut [Event.reply Closing "Bye!"] state
  | Cmd.MailCmd cmdFrom cmdEbm =>
      let ck := state.canReceiveMail
      if !ck.1 then
        StepOut.next [Event.reply BadSequence ck.2] state
      else
        let state' := { state with From := cmdFrom, EightBitMIME := cmdEbm }
        let message := "Sender" ++ (if state'.EightBitMIME then " and 8BITMIME" else "") ++ " ok"
        StepOut.next [Event.reply Ok message] state'
  | Cmd.RcptCmd cmdTo =>
      let ck := state.canReceiveRcpt
      if !ck.1 then
        StepOut.next [Event.reply BadSequence ck.2] state
      else
        StepOut.next [Event.reply Ok "OK"] { state with To := state.To ++ [cmdTo] }
  | Cmd.DataCmd r =>
      let ck := state.canReceiveData
      if !ck.1 then
        StepOut.next [Event.reply BadSequence ck.2] state
      else
        let message := "Start" ++ (if state.EightBitMIME then " 8BITMIME" else "")
          ++ " mail input; end with <CRLF>.<CRLF>"
        let dres := drainData state r
        match dres.2 with
        | DrainRes.cont st' => StepOut.next (Event.reply StartData message :: dres.1) st'
        | DrainRes.died st' => StepOut.panicOut (Event.reply StartData message :: dres.1) st'
  | Cmd.RsetCmd =>
      StepOut.next [Event.reply Ok "OK"] state.reset
  | Cmd.StartTlsCmd =>
      if !hasTls then
        StepOut.next [Event.reply NotImplemented "STARTTLS is not implemented"] state
      else if state.Secure then
        StepOut.next [Event.reply NotImplemented "Already in TLS mode"] state
      else
        let evs := [Event.reply Ready "Ready for TLS handshake", Event.startTls]
        if !tlsOk then
          StepOut.next evs state
        else
          StepOut.next evs { state.reset with Secure := true }
  | Cmd.NoopCmd =>
      StepOut.next [Event.reply Ok "OK"] state
  | Cmd.VrfyCmd => StepOut.next [Event.reply NotImplemented "Command not implemented"] state
  | Cmd.ExpnCmd => StepOut.next [Event.reply NotImplemented "Command not implemented"] state
  | Cmd.SendCmd => StepOut.next [Event.reply NotImplemented "Command not implemented"] state
  | Cmd.SomlCmd => StepOut.next [Event.reply NotImplemented "Command not implemented"] state
  | Cmd.SamlCmd => StepOut.next [Event.reply NotImplemented "Command not implemented"] state
  | Cmd.InvalidCmd info =>
      StepOut.next [Event.reply SyntaxErrorParam info] state
  | Cmd.UnknownCmd =>
      StepOut.next [Event.reply SyntaxError "Command not recognized"] state

/-- One observation at the command-read point (`nextCmd` in mta.go
lines 267-305): `proto.GetCmd` returns `smtp.ErrLtl`, some other error, or a
command; or the quit signal wins the `select`. -/
inductive ReadOutcome where
  | ltl
  | fatal
  | quitSignal
  | cmd (c : Cmd)
deriving DecidableEq, Repr

/-- The command loop of `Mta.HandleClient` (lines 267-534), driven by the
stream of read outcomes.  An `ErrLtl` at the read point sends
500 "Line too long." and retries the read; any other read error makes
`nextCmd` return `true` with no reply, so the loop exits and `proto.Close()`
runs; the quit signal sends 421 "Server is going down." and likewise exits to
`proto.Close()`.  A panic from the DATA branch leaves the function without
reaching `proto.Close()`. -/
def sessionLoop (cfg : Config) (hasTls tlsOk : Bool) : State → List ReadOutcome → List Event
  | _, [] => [Event.close]
  | state, ReadOutcome.ltl :: rest =>
      Event.reply SyntaxError "Line too long." :: sessionLoop cfg hasTls tlsOk state rest
  | _, ReadOutcome.fatal :: _ => [Event.close]
  | _, ReadOutcome.quitSignal :: _ =>
      [Event.reply ShuttingDown "Server is going down.", Event.close]
  | state, ReadOutcome.cmd c :: rest =>
      match handleCommand cfg hasTls tlsOk state c with
      | StepOut.next evs state' => evs ++ sessionLoop cfg hasTls tlsOk state' rest
      | StepOut.quitOut evs _ => evs ++ [Event.close]
      | StepOut.panicOut evs _ => evs

/-- `Mta.HandleClient` (mta.go lines 241-535): build the zero-valued state,
reset it, assign the session id and remote IP, send the greeting, then run
the command loop. -/
def HandleClient (cfg : Config) (hasTls tlsOk : Bool) (sessionId : Id) (ip : String)
    (outcomes : List ReadOutcome) : List Event :=
  let state : State :=
    { From := none, To := [], Data := [], EightBitMIME := false,
      Secure := false, SessionId := ⟨0, 0⟩, Ip := "" }
  let state := state.reset
  let state := { state with SessionId := sessionId, Ip := ip }
  Event.reply Ready (cfg.Hostname ++ " Service Ready") :: sessionLoop cfg hasTls tlsOk state outcomes

/-- Events of a dispatch result, whichever way the loop continues. -/
def StepOut.events : StepOut → List Event
  | StepOut.next evs _ => evs
  | StepOut.quitOut evs _ => evs
  | StepOut.panicOut evs _ => evs

/-- The state accumulated by a full DATA drain: every chunk the reader
produced, appended to the entry state's data. -/
def dataState (st : State) (r : DataReader) : State :=
  { st with Data := st.Data ++ r.ltlChunks.flatten ++ r.finalChunk }

section Fixtures

/-- A concrete configuration (hostname as in the repository's tests). -/
def cfg0 : Config := { Hostname := "home.sweet.home", Port := 25, TlsCert := "", TlsKey := "" }

/-- A concrete sender address. -/
def addr1 : MailAddress := { address := "someone@somewhere.test" }

/-- A concrete recipient address. -/
def addr2 : MailAddress := { address := "guy1@somewhere.test" }

/-- A concrete session id. -/
def sid0 : Id := { Timestamp := 1700000000, Counter := 1 }

/-- A fresh post-greeting session state. -/
def st0 : State :=
  { From := none, To := [], Data := [], EightBitMIME := false,
    Secure := false, SessionId := sid0, Ip := "127.0.0.1" }

/-- A state in which a sender has already been specified. -/
def stFrom : State := { st0 with From := some addr1 }

/-- A state ready to receive DATA (sender set and one recipient). -/
def stReady : State := { st0 with From := some addr1, To := [addr2] }

end Fixtures

/-- C3: `State.reset` sets `From = none`, `To = []`, `Data = []`,
`EightBitMIME = false` and leaves every other field of the Go `State` struct
— `Secure`, `SessionId`, `Ip` — exactly as it was.  (The struct has no
hostname field; these three are all its remaining fields.) -/
theorem reset_clears_envelope_and_frames_rest (s : State) :
    (s.reset).From = none ∧ (s.reset).To = [] ∧ (s.reset).Data = [] ∧
    (s.reset).EightBitMIME = false ∧ (s.reset).Secure = s.Secure ∧
    (s.reset).SessionId = s.SessionId ∧ (s.reset).Ip = s.Ip := by
  simp [State.reset]

/-- C4: the three sequence predicates return exactly the verdicts and reasons
the specification lists, as functions of whether `From` is set and `To` is
empty. -/
theorem sequence_predicates_spec (s : State) :
    s.canReceiveMail
      = (if s.From = none then (true, "") else (false, "Sender already specified")) ∧
    s.canReceiveRcpt
      = (if s.From = none then (false, "Need mail before RCPT") else (true, "")) ∧
    s.canReceiveData
      = (if s.From = none then (false, "Need mail before DATA")
         else if s.To = [] then (false, "Need RCPT before DATA")
         else (true, "")) := by
  rcases s with ⟨f, t, d, e, sec, sid, ip⟩
  cases f <;> cases t <;>
    simp [State.canReceiveMail, State.canReceiveRcpt, State.canReceiveData]

/-- C5 (counterexample): the EHLO handler discards the announced domain: two
EHLO commands with different domains produce the very same replies and the
very same successor state, and that state is just the envelope reset of the
entry state — nothing in it records the domain (the Go `State` struct has no
hostname field). -/
theorem ehlo_ignores_domain_cex :
    ("client.example" : String) ≠ "other.example" ∧
    handleCommand cfg0 true true st0 (Cmd.EhloCmd "client.example")
      = handleCommand cfg0 true true st0 (Cmd.EhloCmd "other.example") ∧
    handleCommand cfg0 true true st0 (Cmd.EhloCmd "client.example")
      = StepOut.next
          [Event.multiReply Ok ["home.sweet.home", "8BITMIME", "STARTTLS", "OK"]]
          st0.reset :=
  ⟨by decide, rfl, rfl⟩

/-- C5 (amended): on EHLO the engine resets the envelope and sends exactly one
multi-line 250 reply whose lines are the server hostname, "8BITMIME", then
"STARTTLS" iff TLS is configured and the session is not secure, then "OK";
the announced domain is ignored and no hostname is stored in the session. -/
theorem ehlo_behavior (cfg : Config) (hasTls tlsOk : Bool) (s : State) (d : String) :
    handleCommand cfg hasTls tlsOk s (Cmd.EhloCmd d) =
      StepOut.next
        [Event.multiReply Ok ([cfg.Hostname, "8BITMIME"]
          ++ (if hasTls = true ∧ s.Secure = false then ["STARTTLS"] else [])
          ++ ["OK"])]
        s.reset := by
  cases hasTls <;> rcases s with ⟨f, t, dta, e, sec, sid, ip⟩ <;> cases sec <;>
    simp [handleCommand, State.reset]

/-- C7: at the command-read point, a `LineTooLong` error sends exactly one
500 "Line too long." reply and the engine retries reading with the same state
and the remaining stream (no command slot consumed); any other read error
ends the session with no reply: the only further event is closing the
adapter. -/
theorem command_read_error_handling (cfg : Config) (hasTls tlsOk : Bool) (s : State)
    (rest : List ReadOutcome) :
    sessionLoop cfg hasTls tlsOk s (ReadOutcome.ltl :: rest)
      = Event.reply SyntaxError "Line too long." :: sessionLoop cfg hasTls tlsOk s rest ∧
    sessionLoop cfg hasTls tlsOk s (ReadOutcome.fatal :: rest) = [Event.close] :=
  ⟨rfl, rfl⟩

/-- C8: STARTTLS replies 502 "STARTTLS is not implemented" when TLS is not
configured and 502 "Already in TLS mode" when the session is already secure,
in both cases leaving the state unchanged; otherwise it replies
220 "Ready for TLS handshake" and invokes the adapter handshake: on success
the envelope is reset and `Secure` becomes true, on failure the state (and in
particular `Secure = false`) is unchanged and the loop continues. -/
theorem starttls_behavior (cfg : Config) (hasTls tlsOk : Bool) (s : State) :
    handleCommand cfg hasTls tlsOk s Cmd.StartTlsCmd =
      (if hasTls = false then
        StepOut.next [Event.reply NotImplemented "STARTTLS is not implemented"] s
      else if s.Secure = true then
        StepOut.next [Event.reply NotImplemented "Already in TLS mode"] s
      else if tlsOk = true then
        StepOut.next [Event.reply Ready "Ready for TLS handshake", Event.startTls]
          { s.reset with Secure := true }
      else
        StepOut.next [Event.reply Ready "Ready for TLS handshake", Event.startTls] s) := by
  cases hasTls <;> cases tlsOk <;> rcases s with ⟨f, t, d, e, sec, sid, ip⟩ <;> cases sec <;>
    simp [handleCommand, State.reset]

/-- C10: a MAIL, RCPT or DATA command whose sequence predicate fails is
answered 503 with the predicate's reason and returns the entry state itself:
no field of the session state is modified. -/
theorem rejected_commands_preserve_state (cfg : Config) (hasTls tlsOk : Bool) (s : State)
    (f : Option MailAddress) (e : Bool) (t : MailAddress) (r : DataReader) :
    ((s.canReceiveMail).1 = false →
      handleCommand cfg hasTls tlsOk s (Cmd.MailCmd f e)
        = StepOut.next [Event.reply BadSequence (s.canReceiveMail).2] s) ∧
    ((s.canReceiveRcpt).1 = false →
      handleCommand cfg hasTls tlsOk s (Cmd.RcptCmd t)
        = StepOut.next [Event.reply BadSequence (s.canReceiveRcpt).2] s) ∧
    ((s.canReceiveData).1 = false →
      handleCommand cfg hasTls tlsOk s (Cmd.DataCmd r)
        = StepOut.next [Event.reply BadSequence (s.canReceiveData).2] s) := by
  refine ⟨?_, ?_, ?_⟩ <;> intro h <;> simp [handleCommand, h]

/-- Witness for C10: a second MAIL in `stFrom` is rejected with
503 "Sender already specified" and the state is returned unchanged. -/
theorem rejected_commands_preserve_state_witness :
    (stFrom.canReceiveMail).1 = false ∧
    handleCommand cfg0 true true stFrom (Cmd.MailCmd (some addr2) false)
      = StepOut.next [Event.reply BadSequence (stFrom.canReceiveMail).2] stFrom :=
  ⟨by decide,
   (rejected_commands_preserve_state cfg0 true true stFrom (some addr2) false addr1
      { ltlChunks := [], finalChunk := [], finalErr := FinalRes.clean }).1 (by decide)⟩

/-- A DATA drain with a clean final read: one 500 reply per `ErrLtl` round,
then the handler on the fully accumulated state, then 250 "Mail delivered",
and the loop continues on the reset of the accumulated state. -/
theorem drainLoop_clean (cs : List (List Nat)) (st : State) (fc : List Nat) :
    drainLoop st cs fc FinalRes.clean
      = ((cs.map fun _ => Event.reply SyntaxError "Line too long")
          ++ [Event.handleMail { st with Data := st.Data ++ cs.flatten ++ fc },
              Event.reply Ok "Mail delivered"],
         DrainRes.cont ({ st with Data := st.Data ++ cs.flatten ++ fc }).reset) := by
  induction cs generalizing st with
  | nil => simp [drainLoop]
  | cons c cs ih => simp [drainLoop, ih, List.append_assoc]

/-- Every state passed to the handler during a DATA drain has the `From` and
`To` of the state the drain started from (the drain only appends to `Data`). -/
theorem drainLoop_handleMail_mem (cs : List (List Nat)) (st : State) (fc : List Nat)
    (fe : FinalRes) (s : State) :
    Event.handleMail s ∈ (drainLoop st cs fc fe).1 →
    s.From = st.From ∧ s.To = st.To := by
  induction cs generalizing st with
  | nil =>
      cases fe <;> simp [drainLoop]
      rintro rfl
      simp
  | cons c cs ih =>
      simp only [drainLoop, List.mem_cons]
      rintro (h | h)
      · cases h
      · have := ih { st with Data := st.Data ++ c } h
        simpa using this

/-- A sequence check `canReceiveData = (true, _)` means the sender is set and
at least one recipient was accepted. -/
theorem canReceiveData_true (st : State) (h : (st.canReceiveData).1 = true) :
    st.From.isSome = true ∧ 1 ≤ st.To.length := by
  rcases st with ⟨f, t, d, e, sec, sid, ip⟩
  cases f <;> cases t <;> simp_all [State.canReceiveData]

/-- The events of an accepted DATA command: the 354 reply followed by the
drain's events, whichever way the drain ends. -/
theorem handleCommand_data_events (cfg : Config) (hasTls tlsOk : Bool) (st : State)
    (r : DataReader) (h : (st.canReceiveData).1 = true) :
    (handleCommand cfg hasTls tlsOk st (Cmd.DataCmd r)).events
      = Event.reply StartData ("Start" ++ (if st.EightBitMIME then " 8BITMIME" else "")
          ++ " mail input; end with <CRLF>.<CRLF>") :: (drainData st r).1 := by
  simp only [handleCommand, h]
  cases hd : (drainData st r).2 <;> simp [StepOut.events]

/-- Any handler invocation inside one dispatched command is on a state with a
sender and a non-empty recipient list. -/
theorem handleCommand_handleMail_mem (cfg : Config) (hasTls tlsOk : Bool) (st : State)
    (c : Cmd) (s : State) :
    Event.handleMail s ∈ (handleCommand cfg hasTls tlsOk st c).events →
    s.From.isSome = true ∧ 1 ≤ s.To.length := by
  cases c with
  | DataCmd r =>
      by_cases h : (st.canReceiveData).1 = true
      · rw [handleCommand_data_events cfg hasTls tlsOk st r h]
        intro hmem
        have hmem' : Event.handleMail s ∈ (drainData st r).1 := by
          rcases List.mem_cons.mp hmem with heq | htl
          · cases heq
          · exact htl
        have hft := drainLoop_handleMail_mem r.ltlChunks st r.finalChunk r.finalErr s hmem'
        have hd := canReceiveData_true st h
        exact ⟨by rw [hft.1]; exact hd.1, by rw [hft.2]; exact hd.2⟩
      · have hb : (st.canReceiveData).1 = false := by
          cases hv : (st.canReceiveData).1
          · rfl
          · exact absurd hv h
        simp [handleCommand, hb, StepOut.events]
  | MailCmd f e =>
      simp only [handleCommand]
      split <;> simp [StepOut.events]
  | RcptCmd t =>
      simp only [handleCommand]
      split <;> simp [StepOut.events]
  | StartTlsCmd =>
      simp only [handleCommand]
      split_ifs <;> simp [StepOut.events]
  | HeloCmd d => simp [handleCommand, StepOut.events]
  | EhloCmd d => simp [handleCommand, StepOut.events]
  | QuitCmd => simp [handleCommand, StepOut.events]
  | RsetCmd => simp [handleCommand, StepOut.events]
  | NoopCmd => simp [handleCommand, StepOut.events]
  | VrfyCmd => simp [handleCommand, StepOut.events]
  | ExpnCmd => simp [handleCommand, StepOut.events]
  | SendCmd => simp [handleCommand, StepOut.events]
  | SomlCmd => simp [handleCommand, StepOut.events]
  | SamlCmd => simp [handleCommand, StepOut.events]
  | InvalidCmd i => simp [handleCommand, StepOut.events]
  | UnknownCmd => simp [handleCommand, StepOut.events]

/-- Any handler invocation anywhere in the command loop is on a state with a
sender and a non-empty recipient list. -/
theorem sessionLoop_handleMail_mem (cfg : Config) (hasTls tlsOk : Bool)
    (outcomes : List ReadOutcome) (st : State) (s : State) :
    Event.handleMail s ∈ sessionLoop cfg hasTls tlsOk st outcomes →
    s.From.isSome = true ∧ 1 ≤ s.To.length := by
  induction outcomes generalizing st with
  | nil => simp [sessionLoop]
  | cons o rest ih =>
      cases o with
      | ltl =>
          simp only [sessionLoop, List.mem_cons]
          rintro (h | h)
          · cases h
          · exact ih st h
      | fatal => simp [sessionLoop]
      | quitSignal => simp [sessionLoop]
      | cmd c =>
          cases hstep : handleCommand cfg hasTls tlsOk st c with
          | next evs st' =>
              simp only [sessionLoop, hstep]
              intro hmem
              rcases List.mem_append.mp hmem with hl | hr
              · exact handleCommand_handleMail_mem cfg hasTls tlsOk st c s
                  (by rw [hstep]; exact hl)
              · exact ih st' hr
          | quitOut evs st' =>
              simp only [sessionLoop, hstep]
              intro hmem
              rcases List.mem_append.mp hmem with hl | hr
              · exact handleCommand_handleMail_mem cfg hasTls tlsOk st c s
                  (by rw [hstep]; exact hl)
              · simp at hr
          | panicOut evs st' =>
              simp only [sessionLoop, hstep]
              intro hmem
              exact handleCommand_handleMail_mem cfg hasTls tlsOk st c s
                (by rw [hstep]; exact hmem)

/-- C1: in every session and for every command stream, whenever the engine
invokes `HandleMail` the state passed to it has a sender (`From ≠ none`) and
at least one recipient (`|To| ≥ 1`). -/
theorem handler_requires_sender_and_recipient (cfg : Config) (hasTls tlsOk : Bool)
    (sid : Id) (ip : String) (outcomes : List ReadOutcome) (s : State) :
    Event.handleMail s ∈ HandleClient cfg hasTls tlsOk sid ip outcomes →
    s.From.isSome = true ∧ 1 ≤ s.To.length := by
  intro h
  simp only [HandleClient, List.mem_cons] at h
  rcases h with h | h
  · cases h
  · exact sessionLoop_handleMail_mem cfg hasTls tlsOk outcomes _ s h

/-- Command stream that delivers one complete mail and quits. -/
def outsMail : List ReadOutcome :=
  [ReadOutcome.cmd (Cmd.MailCmd (some addr1) false),
   ReadOutcome.cmd (Cmd.RcptCmd addr2),
   ReadOutcome.cmd (Cmd.DataCmd { ltlChunks := [], finalChunk := [72, 105], finalErr := FinalRes.clean }),
   ReadOutcome.cmd Cmd.QuitCmd]

/-- The state the handler receives in `outsMail`. -/
def stH : State :=
  { From := some addr1, To := [addr2], Data := [72, 105], EightBitMIME := false,
    Secure := false, SessionId := sid0, Ip := "127.0.0.1" }

/-- Witness for C1: in the concrete session `outsMail` the handler is invoked
on `stH`, which indeed has a sender and one recipient. -/
theorem handler_requires_sender_and_recipient_witness :
    stH.From.isSome = true ∧ 1 ≤ stH.To.length :=
  handler_requires_sender_and_recipient cfg0 false false sid0 "127.0.0.1" outsMail stH
    (by decide)

/-- C2: a DATA command that completes cleanly produces, in order, the 354
reply, the drain's 500 replies (one per over-long line), the handler
invocation on the accumulated state, and the 250 "Mail delivered" reply; the
state is reset before the next command is read, so an immediately following
RCPT is answered 503 "Need mail before RCPT" and the loop continues on the
reset state. -/
theorem data_success_replies_and_resets (cfg : Config) (hasTls tlsOk : Bool) (st : State)
    (r : DataReader) (y : MailAddress) (rest : List ReadOutcome)
    (hok : (st.canReceiveData).1 = true) (hclean : r.finalErr = FinalRes.clean) :
    sessionLoop cfg hasTls tlsOk st
        (ReadOutcome.cmd (Cmd.DataCmd r) :: ReadOutcome.cmd (Cmd.RcptCmd y) :: rest)
      = Event.reply StartData ("Start" ++ (if st.EightBitMIME then " 8BITMIME" else "")
            ++ " mail input; end with <CRLF>.<CRLF>")
        :: ((r.ltlChunks.map fun _ => Event.reply SyntaxError "Line too long")
            ++ [Event.handleMail (dataState st r), Event.reply Ok "Mail delivered",
                Event.reply BadSequence "Need mail before RCPT"])
        ++ sessionLoop cfg hasTls tlsOk (dataState st r).reset rest := by
  have hd : drainData st r
      = ((r.ltlChunks.map fun _ => Event.reply SyntaxError "Line too long")
          ++ [Event.handleMail (dataState st r), Event.reply Ok "Mail delivered"],
         DrainRes.cont (dataState st r).reset) := by
    rw [drainData, hclean, drainLoop_clean]
    rfl
  have hstep : handleCommand cfg hasTls tlsOk st (Cmd.DataCmd r)
      = StepOut.next
          (Event.reply StartData ("Start" ++ (if st.EightBitMIME then " 8BITMIME" else "")
              ++ " mail input; end with <CRLF>.<CRLF>")
            :: ((r.ltlChunks.map fun _ => Event.reply SyntaxError "Line too long")
                ++ [Event.handleMail (dataState st r), Event.reply Ok "Mail delivered"]))
          ((dataState st r).reset) := by
    simp [handleCommand, hok, hd]
  have hrcpt : handleCommand cfg hasTls tlsOk ((dataState st r).reset) (Cmd.RcptCmd y)
      = StepOut.next [Event.reply BadSequence "Need mail before RCPT"] ((dataState st r).reset) := by
    simp [handleCommand, State.canReceiveRcpt, State.reset]
  simp [sessionLoop, hstep, hrcpt]

/-- A clean one-read DATA body reader carrying the bytes "hi". -/
def rdrClean : DataReader :=
  { ltlChunks := [], finalChunk := [104, 105], finalErr := FinalRes.clean }

/-- Witness for C2: from the concrete ready state, the clean DATA followed by
a RCPT yields exactly handler, 250 "Mail delivered", 503 "Need mail before
RCPT". -/
theorem data_success_replies_and_resets_witness :
    (stReady.canReceiveData).1 = true ∧ rdrClean.finalErr = FinalRes.clean ∧
    sessionLoop cfg0 false false stReady
        (ReadOutcome.cmd (Cmd.DataCmd rdrClean) :: ReadOutcome.cmd (Cmd.RcptCmd addr2) :: [])
      = Event.reply StartData ("Start" ++ (if stReady.EightBitMIME then " 8BITMIME" else "")
            ++ " mail input; end with <CRLF>.<CRLF>")
        :: ((rdrClean.ltlChunks.map fun _ => Event.reply SyntaxError "Line too long")
            ++ [Event.handleMail (dataState stReady rdrClean), Event.reply Ok "Mail delivered",
                Event.reply BadSequence "Need mail before RCPT"])
        ++ sessionLoop cfg0 false false (dataState stReady rdrClean).reset [] :=
  ⟨by decide, rfl,
   data_success_replies_and_resets cfg0 false false stReady rdrClean addr2 []
     (by decide) rfl⟩

/-- A body reader whose single read yields `fc` and then fails with an
unrecoverable (neither `ErrLtl` nor `ErrIncomplete`) error. -/
def rdrOther (fc : List Nat) : DataReader :=
  { ltlChunks := [], finalChunk := fc, finalErr := FinalRes.otherErr }

/-- C6: during the DATA body drain, an `ErrLtl` read appends what was read,
replies 500 "Line too long" and resumes the drain from the current position;
an `ErrIncomplete` read replies 500 "Could not parse mail data", resets the
state and lets the command loop continue with no handler invocation; any
other read error aborts the session through the fatal panic — the trace stops
there, the remaining commands are not processed and the handler is not
invoked. -/
theorem data_drain_error_handling (st : State) (c : List Nat) (cs : List (List Nat))
    (fc : List Nat) (fe : FinalRes) (cfg : Config) (hasTls tlsOk : Bool)
    (rest : List ReadOutcome) :
    drainData st { ltlChunks := c :: cs, finalChunk := fc, finalErr := fe }
      = (Event.reply SyntaxError "Line too long"
           :: (drainData { st with Data := st.Data ++ c }
                 { ltlChunks := cs, finalChunk := fc, finalErr := fe }).1,
         (drainData { st with Data := st.Data ++ c }
            { ltlChunks := cs, finalChunk := fc, finalErr := fe }).2) ∧
    drainData st { ltlChunks := [], finalChunk := fc, finalErr := FinalRes.incomplete }
      = ([Event.reply SyntaxError "Could not parse mail data"],
         DrainRes.cont ({ st with Data := st.Data ++ fc }).reset) ∧
    ((st.canReceiveData).1 = true →
      sessionLoop cfg hasTls tlsOk st
          (ReadOutcome.cmd (Cmd.DataCmd (rdrOther fc)) :: rest)
        = [Event.reply StartData ("Start" ++ (if st.EightBitMIME then " 8BITMIME" else "")
             ++ " mail input; end with <CRLF>.<CRLF>"),
           Event.fatalPanic]) := by
  refine ⟨rfl, rfl, ?_⟩
  intro h
  simp [sessionLoop, handleCommand, h, drainData, drainLoop, rdrOther]

/-- Witness for C6: in the concrete ready state a DATA whose body read fails
with an unrecoverable error sends only the 354 reply and then panics; the
following QUIT is never processed. -/
theorem data_drain_error_handling_witness :
    (stReady.canReceiveData).1 = true ∧
    sessionLoop cfg0 false false stReady
        (ReadOutcome.cmd (Cmd.DataCmd (rdrOther [])) :: [ReadOutcome.cmd Cmd.QuitCmd])
      = [Event.reply StartData ("Start" ++ (if stReady.EightBitMIME then " 8BITMIME" else "")
           ++ " mail input; end with <CRLF>.<CRLF>"),
         Event.fatalPanic] :=
  ⟨by decide,
   (data_drain_error_handling stReady [] [] [] FinalRes.otherErr cfg0 false false
      [ReadOutcome.cmd Cmd.QuitCmd]).2.2 (by decide)⟩

/-- Command stream whose DATA body read fails with an unrecoverable error,
followed by a QUIT that is never reached. -/
def outsPanic : List ReadOutcome :=
  [ReadOutcome.cmd (Cmd.MailCmd (some addr1) false),
   ReadOutcome.cmd (Cmd.RcptCmd addr2),
   ReadOutcome.cmd (Cmd.DataCmd (rdrOther [])),
   ReadOutcome.cmd Cmd.QuitCmd]

/-- C9 (failing input): on the panic exit path — here the fatal body-error
branch, which reaches `log.Panic` — `Mta.HandleClient` ends without ever
emitting a `close`: the full trace of the session `outsPanic` ends in the
panic and contains no `Event.close`, because `proto.Close()` at the end of
`HandleClient` is not deferred and is skipped when the goroutine unwinds. -/
theorem panic_path_skips_close :
    HandleClient cfg0 false false sid0 "127.0.0.1" outsPanic
      = [Event.reply Ready "home.sweet.home Service Ready",
         Event.reply Ok "Sender ok",
         Event.reply Ok "OK",
         Event.reply StartData "Start mail input; end with <CRLF>.<CRLF>",
         Event.fatalPanic] ∧
    Event.close ∉ HandleClient cfg0 false false sid0 "127.0.0.1" outsPanic := by
  exact ⟨by decide, by decide⟩

end Mta
